import Mathlib

/-!
Shallow embedding of `resources/lib/files/simplecache.py` (class `SimpleCache`),
a two-tier TTL cache: an ephemeral tier of Kodi window properties and a durable
sqlite table `simplecache(id, expires, data, checksum)`.

Modelling conventions:
* The window-property store is split into two association lists: `mem` for the
  JSON-encoded cache entries (keys of the form `sc_name ++ "_" ++ endpoint`)
  and `props` for the plain string markers (keys of the form
  `sc_name ++ ".clean.lastexecuted"` and `sc_name ++ ".cleanbusy"`).  The two
  key families cannot collide: a cache key has the character `_` right after
  the namespace where a marker key has `.`.
* JSON serialisation (`json_dumps` / `json_loads`) is modelled as the identity
  on an opaque value type `α`: the Python code round-trips values through JSON
  text, and the spec quantifies over JSON-serialisable data, for which the
  round-trip is equality at the level the claims speak about.  Likewise
  `pickle_deepcopy` is a value-level copy, the identity on values.
* Machine time: `set_timestamp` lives in `resources/lib/addon/timedate.py`,
  which is not part of the sources; it is modelled from the spec (see its
  doc comment).  The current wall clock is threaded as an explicit `now : Int`.
* Cooperative abort (`xbmc.Monitor.abortRequested`) is threaded as an explicit
  Boolean (constant during one engine call), except in the sqlite retry loop
  and the cleanup row loop, where the source polls it repeatedly and it is a
  function of the poll index.
-/

namespace SimpleCache

/-- Constant from the source: `TIME_MINUTES = 60`. -/
def TIME_MINUTES : Int := 60

/-- Constant from the source: `TIME_HOURS = 60 * TIME_MINUTES`. -/
def TIME_HOURS : Int := 60 * TIME_MINUTES

/-- Constant from the source: `TIME_DAYS = 24 * TIME_HOURS`. -/
def TIME_DAYS : Int := 24 * TIME_HOURS

/-- Class attribute from the source: `_auto_clean_interval = 4 * TIME_HOURS`. -/
def auto_clean_interval : Int := 4 * TIME_HOURS

/-- Modelled from the spec: the timestamp helper `set_timestamp(offset, True)`
of `resources/lib/addon/timedate.py` is missing from the sources.  Per the
spec, the timestamp source is a "monotonic-enough wall-clock integer seconds,
with a helper to add an offset (used for TTL math)"; so the helper returns the
current wall clock plus the offset, as integer seconds. -/
def set_timestamp (now : Int) (offset : Int) : Int := now + offset

/-- Sum of the Unicode code points of a string:
`reduce(lambda x, y: x + y, map(ord, stringinput))`.  (`reduce` without an
initial value requires a non-empty string; `_get_checksum` never reaches the
reduction with an empty string, since the empty-input/empty-override case
returns `0` first and the override branch inserts a `-` character.) -/
def codePointSum (s : String) : Nat := (s.data.map Char.toNat).sum

/-- Python truthiness of the optional `global_checksum` class attribute:
`None` and the empty string are falsy. -/
def pyTruthy : Option String → Bool
  | none => false
  | some s => !(s == "")

/-- Translation of `SimpleCache._get_checksum(self, stringinput)`.
`stringinput` is the caller-supplied checksum string (always a `str` in this
repository, defaulting to `""`); `global_checksum` is the process-wide
override.  `u"{}-{}".format(self.global_checksum, stringinput)` is the string
append `override ++ "-" ++ stringinput`, and for a string argument
`str(stringinput)` is the identity. -/
def _get_checksum (global_checksum : Option String) (stringinput : String) : Nat :=
  if stringinput = "" ∧ pyTruthy global_checksum = false then 0
  else if pyTruthy global_checksum then
    codePointSum ((global_checksum.getD "") ++ "-" ++ stringinput)
  else
    codePointSum stringinput

/-- Entry held in the ephemeral tier: the JSON triple `[expires, data, checksum]`
written by `_set_mem_cache`. -/
structure MemEntry (α : Type) where
  expires : Int
  data : α
  checksum : Nat
  deriving DecidableEq, Repr

/-- Row of the durable table: `(expires, data, checksum)` as selected by
`_get_db_cache`, keyed by the raw endpoint `id`. -/
structure DbRow (α : Type) where
  expires : Int
  data : α
  checksum : Nat
  deriving DecidableEq, Repr

/-- Per-instance configuration of the engine, fixed at construction. -/
structure Config where
  sc_name : String
  global_checksum : Option String
  mem_only : Bool
  delaywrite : Bool
  deriving DecidableEq, Repr

/-- Mutable state touched by the engine: the ephemeral tier (`mem` entries and
string marker `props`), the durable table `db`, the deferred-write `queue`
(tuples `(endpoint, checksum, expires, data)` as appended by `set`), and the
`_exit` flag. -/
structure CacheState (α : Type) where
  mem : List (String × MemEntry α)
  props : List (String × String)
  db : List (String × DbRow α)
  queue : List (String × Nat × Int × α)
  exitFlag : Bool
  deriving DecidableEq, Repr

/-- Association-list write with at most one live binding per key; models both
`setProperty` (last write wins) and sqlite `INSERT OR REPLACE` on the unique
`id` column. -/
def insertReplace (k : String) (v : β) (l : List (String × β)) : List (String × β) :=
  (k, v) :: l.filter (fun p => p.1 ≠ k)

/-- Association-list delete; models `clearProperty` and `DELETE ... WHERE id = ?`. -/
def eraseKey (k : String) (l : List (String × β)) : List (String × β) :=
  l.filter (fun p => p.1 ≠ k)

/-- Association-list read. -/
def lookupKey (k : String) (l : List (String × β)) : Option β := List.lookup k l

/-- Read of a string window property: `getProperty` returns the empty string
when the property is absent. -/
def getProp (st : CacheState α) (k : String) : String := (lookupKey k st.props).getD ""

/-- Write of a string window property. -/
def setProp (st : CacheState α) (k v : String) : CacheState α :=
  { st with props := insertReplace k v st.props }

/-- Clear of a string window property. -/
def clearProp (st : CacheState α) (k : String) : CacheState α :=
  { st with props := eraseKey k st.props }

/-- Python `int(...)` applied to a stored marker string.  In this program the
parsed strings are always `str(cur_time)` for an integer timestamp; this
parser agrees with Python `int` on every such string (and is total where
Python would raise on malformed input, which never occurs here). -/
def digitsToNat : List Char → Nat → Nat
  | [], acc => acc
  | c :: cs, acc => digitsToNat cs (acc * 10 + (c.toNat - 48))

/-- Python `int` on the decimal string representations produced by `str`. -/
def pyInt (s : String) : Int :=
  match s.data with
  | '-' :: cs => -(digitsToNat cs 0 : Int)
  | cs => (digitsToNat cs 0 : Int)

/-- Ways one `execute`/`executemany` attempt can fail inside `_execute_sql`:
an `sqlite3.OperationalError` (with a flag recording whether its message is
the "database is locked" message), or any other exception. -/
inductive SqlFailure
  | opErr (lockedMsg : Bool)
  | exc
  deriving DecidableEq, Repr

/-- Outcome of one statement-execution attempt against the store. -/
inductive AttemptOutcome (ρ : Type)
  | success (r : ρ)
  | fail (f : SqlFailure)

/-- Evaluation of the source expression `"database is locked" in error` inside
the `except sqlite3.OperationalError as error:` handler.  `error` is bound to
the exception object itself, not to its message: in Python 3 an exception
instance is neither a container nor iterable, so the membership test raises
`TypeError` regardless of the message; the surrounding
`try: ... except TypeError: break` catches it.  We embed the evaluation as an
`Except`: `.error ()` is the raised `TypeError`. -/
def locked_substring_test (_f : SqlFailure) : Except Unit Bool := Except.error ()

/-- Loop body of `SimpleCache._execute_sql`:
`while not retries == 10 and not self._monitor.abortRequested():` with
`if self._exit: return None` first, then the attempt; on success return the
result; on `OperationalError` evaluate the lock test (retry with a 0.5 s
abort-aware pause when it yields true, break when false or when it raises
`TypeError`); on any other exception break.  Falling out of the loop returns
`None`.  The fuel argument is `10 - retries`, so fuel `0` is exactly the
`retries == 10` exit; `retries` counts the iterations (it is also the index
into the attempt/abort schedules) and the second result counts the 0.5 s
pauses taken. -/
def execute_sql_go (attempt : Nat → AttemptOutcome ρ) (abort : Nat → Bool) (exitFlag : Bool) :
    Nat → Nat → Nat → Option ρ × Nat
  | 0, _, pauses => (none, pauses)
  | fuel + 1, retries, pauses =>
    if abort retries then (none, pauses)
    else if exitFlag then (none, pauses)
    else
      match attempt retries with
      | AttemptOutcome.success r => (some r, pauses)
      | AttemptOutcome.fail SqlFailure.exc => (none, pauses)
      | AttemptOutcome.fail (SqlFailure.opErr m) =>
        match locked_substring_test (SqlFailure.opErr m) with
        | Except.ok true => execute_sql_go attempt abort exitFlag fuel (retries + 1) (pauses + 1)
        | Except.ok false => (none, pauses)
        | Except.error _ => (none, pauses)

/-- Translation of `SimpleCache._execute_sql(self, query, data)`: result of the
retry loop together with the number of 0.5 s pauses it slept. -/
def _execute_sql (attempt : Nat → AttemptOutcome ρ) (abort : Nat → Bool) (exitFlag : Bool) :
    Option ρ × Nat :=
  execute_sql_go attempt abort exitFlag 10 0 0

/-- Whether a statement run through `_execute_sql` goes through when sqlite
itself raises no error (the engine-level happy path used by the tier
operations below): the loop still returns `None` without executing anything
when the abort signal is up at entry or when the `_exit` flag is set. -/
def sqlOk (exitFlag : Bool) (abort : Bool) : Bool :=
  ((_execute_sql (fun _ => AttemptOutcome.success ()) (fun _ => abort) exitFlag).1).isSome

/-- Translation of `SimpleCache._set_mem_cache(self, endpoint, checksum, expires, data)`:
`setProperty(sc_name ++ "_" ++ endpoint, json_dumps([expires, data, checksum]))`. -/
def _set_mem_cache (cfg : Config) (st : CacheState α) (endpoint : String) (checksum : Nat)
    (expires : Int) (data : α) : CacheState α :=
  let key := cfg.sc_name ++ "_" ++ endpoint
  let cachedata := MemEntry.mk expires data checksum
  { st with mem := insertReplace key cachedata st.mem }

/-- Translation of `SimpleCache._get_mem_cache(self, endpoint, checksum, cur_time)`:
absent property (empty string) is a miss; then `int(cachedata[0]) <= cur_time`
is a miss; then `if not checksum or checksum == cachedata[2]` returns
`cachedata[1]`. -/
def _get_mem_cache (cfg : Config) (st : CacheState α) (endpoint : String) (checksum : Nat)
    (cur_time : Int) : Option α :=
  match lookupKey (cfg.sc_name ++ "_" ++ endpoint) st.mem with
  | none => none
  | some cachedata =>
    if cachedata.expires ≤ cur_time then none
    else if checksum = 0 ∨ checksum = cachedata.checksum then some cachedata.data
    else none

/-- Translation of `SimpleCache._set_db_cache(self, endpoint, checksum, expires, data)`:
`INSERT OR REPLACE INTO simplecache(id, expires, data, checksum)` through
`_execute_sql`; when the loop reports failure the table is untouched. -/
def _set_db_cache (abort : Bool) (st : CacheState α) (endpoint : String) (checksum : Nat)
    (expires : Int) (data : α) : CacheState α :=
  if sqlOk st.exitFlag abort then
    { st with db := insertReplace endpoint (DbRow.mk expires data checksum) st.db }
  else st

/-- Translation of `SimpleCache._get_db_cache(self, endpoint, checksum, cur_time)`:
`SELECT expires, data, checksum FROM simplecache WHERE id = ?` through
`_execute_sql` (a failed execution is falsy, hence a miss), then the same
validity rule as the memory tier; on a hit the memory tier is repopulated via
`_set_mem_cache(endpoint, checksum, cache_data[0], result)` — note that the
`checksum` written back is the one passed to the query, not the stored
`cache_data[2]`. -/
def _get_db_cache (cfg : Config) (abort : Bool) (st : CacheState α) (endpoint : String)
    (checksum : Nat) (cur_time : Int) : Option α × CacheState α :=
  if sqlOk st.exitFlag abort then
    match lookupKey endpoint st.db with
    | none => (none, st)
    | some row =>
      if row.expires ≤ cur_time then (none, st)
      else if checksum = 0 ∨ checksum = row.checksum then
        (some row.data, _set_mem_cache cfg st endpoint checksum row.expires row.data)
      else (none, st)
  else (none, st)

/-- Translation of `SimpleCache.get(self, endpoint, checksum="")`: derive the
checksum, take `cur_time = set_timestamp(0, True)`, try the memory tier, and
return its result when it is not `None` or when the engine is mem-only;
otherwise fall back to the database tier.  Returns the result together with
the (possibly repopulated) state. -/
def get (cfg : Config) (abort : Bool) (now : Int) (st : CacheState α) (endpoint : String)
    (checksum : String) : Option α × CacheState α :=
  let cs := _get_checksum cfg.global_checksum checksum
  let cur_time := set_timestamp now 0
  match _get_mem_cache cfg st endpoint cs cur_time with
  | some result => (some result, st)
  | none =>
    if cfg.mem_only then (none, st)
    else _get_db_cache cfg abort st endpoint cs cur_time

/-- Translation of `SimpleCache.set(self, endpoint, data, checksum="", cache_days=30)`:
inside the `busy_tasks` scope (which appends a label on entry and removes it
on exit, so a completed call leaves the busy list unchanged), derive the
checksum, compute `expires = set_timestamp(cache_days * TIME_DAYS, True)`,
write the memory tier, then return if mem-only, else append
`(endpoint, checksum, expires, pickle_deepcopy(data))` to the queue if
deferred writing is on, else write through to the database. -/
def set (cfg : Config) (abort : Bool) (now : Int) (st : CacheState α) (endpoint : String)
    (data : α) (checksum : String) (cache_days : Int) : CacheState α :=
  let cs := _get_checksum cfg.global_checksum checksum
  let expires := set_timestamp now (cache_days * TIME_DAYS)
  let st1 := _set_mem_cache cfg st endpoint cs expires data
  if cfg.mem_only then st1
  else if cfg.delaywrite then { st1 with queue := st1.queue ++ [(endpoint, cs, expires, data)] }
  else _set_db_cache abort st1 endpoint cs expires data

/-- Drain of the deferred queue in `close`: `for i in self._queue: self._set_db_cache(*i)`. -/
def flushQueue (abort : Bool) (st : CacheState α) : CacheState α :=
  st.queue.foldl (fun s i => _set_db_cache abort s i.1 i.2.1 i.2.2.1 i.2.2.2) st

/-- Translation of `SimpleCache.close(self)`: set `self._exit = True`, wait for
the busy-task list to drain (the wait loop only sleeps and cannot change any
tier, so it is invisible in this sequential model), run `_set_db_cache` on
every queued tuple, and clear the queue. -/
def close (abort : Bool) (st : CacheState α) : CacheState α :=
  let st1 := { st with exitFlag := true }
  let st2 := flushQueue abort st1
  { st2 with queue := [] }

/-- Row loop of `SimpleCache._do_cleanup`: iterate over the snapshot
(`fetchall()`) of `SELECT id, expires FROM simplecache`; per row, first
`if self._exit or self._monitor.abortRequested(): return` (the Boolean result
records whether the loop ran to completion, i.e. whether control fell through
to the code after the loop instead of returning out of the function), then
`clearProperty(cache_id)` with the raw row id, then delete the row when
`force or int(cache_expires) < cur_time`. -/
def cleanupLoop (exitFlag : Bool) (abortRow : Nat → Bool) (force : Bool) (cur_time : Int) :
    List (String × DbRow α) → Nat → CacheState α → CacheState α × Bool
  | [], _, st => (st, true)
  | (cache_id, row) :: rest, i, st =>
    if exitFlag || abortRow i then (st, false)
    else
      let st1 := { st with mem := eraseKey cache_id st.mem }
      let st2 := if force ∨ row.expires < cur_time then { st1 with db := eraseKey cache_id st1.db }
                 else st1
      cleanupLoop exitFlag abortRow force cur_time rest (i + 1) st2

/-- Translation of `SimpleCache._do_cleanup(self, force=False)`: return when
exiting or abort is up; inside the busy-task scope take `cur_time`, return
when the `.cleanbusy` marker is already set, set it to "busy", run the row
loop; a mid-loop `return` leaves the function at once, while completion
continues to `VACUUM` (which changes no row) and then the washup that stores
`str(cur_time)` under `.clean.lastexecuted` and clears `.cleanbusy`.  The
`SELECT` feeding the loop is taken on the happy path (no sqlite error: a
failed `SELECT` would return `None` and the source would crash on
`None.fetchall()`). -/
def _do_cleanup (cfg : Config) (force : Bool) (abortTop : Bool) (abortRow : Nat → Bool)
    (now : Int) (st : CacheState α) : CacheState α :=
  if st.exitFlag || abortTop then st
  else
    let cur_time := set_timestamp now 0
    if getProp st (cfg.sc_name ++ ".cleanbusy") ≠ "" then st
    else
      let st1 := setProp st (cfg.sc_name ++ ".cleanbusy") "busy"
      match cleanupLoop st1.exitFlag abortRow force cur_time st1.db 0 st1 with
      | (st2, false) => st2
      | (st2, true) =>
        let st3 := setProp st2 (cfg.sc_name ++ ".clean.lastexecuted") (toString cur_time)
        clearProp st3 (cfg.sc_name ++ ".cleanbusy")

/-- Translation of `SimpleCache.check_cleanup(self)`: no-op when mem-only;
read the `.clean.lastexecuted` marker; when absent (empty string) initialise
it to `str(cur_time)`; otherwise run `_do_cleanup` exactly when
`int(lastexecuted) + set_timestamp(self._auto_clean_interval, True) < cur_time`.
The Boolean result is an added observation recording whether the cleanup
branch was taken. -/
def check_cleanup (cfg : Config) (abortTop : Bool) (abortRow : Nat → Bool) (now : Int)
    (st : CacheState α) : CacheState α × Bool :=
  if cfg.mem_only then (st, false)
  else
    let cur_time := set_timestamp now 0
    let lastexecuted := getProp st (cfg.sc_name ++ ".clean.lastexecuted")
    if lastexecuted = "" then
      (setProp st (cfg.sc_name ++ ".clean.lastexecuted") (toString cur_time), false)
    else if pyInt lastexecuted + set_timestamp now auto_clean_interval < cur_time then
      (_do_cleanup cfg false abortTop abortRow now st, true)
    else (st, false)

end SimpleCache

namespace SimpleCache

/-! ### Small helper lemmas about the association-list stores -/

theorem lookupKey_insertReplace_self (k : String) (v : β) (l : List (String × β)) :
    lookupKey k (insertReplace k v l) = some v := by
  simp [lookupKey, insertReplace, List.lookup]

theorem codePointSum_append (a b : String) :
    codePointSum (a ++ b) = codePointSum a + codePointSum b := by
  simp [codePointSum, String.data_append]

theorem sqlOk_false_false : sqlOk false false = true := rfl

theorem sqlOk_true (abort : Bool) : sqlOk true abort = false := by
  cases abort <;> rfl

/-- Memory tier written by `set`, in every mode: `set` always starts with
`_set_mem_cache`, and the later branches touch only `queue` and `db`. -/
theorem set_mem_eq (cfg : Config) (abort : Bool) (now : Int) (st : CacheState α) (e : String)
    (d : α) (cs : String) (days : Int) :
    (set cfg abort now st e d cs days).mem =
      insertReplace (cfg.sc_name ++ "_" ++ e)
        (MemEntry.mk (set_timestamp now (days * TIME_DAYS)) d
          (_get_checksum cfg.global_checksum cs)) st.mem := by
  cases hm : cfg.mem_only <;> cases hd : cfg.delaywrite <;>
      cases hs : sqlOk st.exitFlag abort <;>
    simp [set, _set_mem_cache, _set_db_cache, hm, hd, hs]

/-- The `_exit` flag is untouched by `set`. -/
theorem set_exitFlag (cfg : Config) (abort : Bool) (now : Int) (st : CacheState α) (e : String)
    (d : α) (cs : String) (days : Int) :
    (set cfg abort now st e d cs days).exitFlag = st.exitFlag := by
  cases hm : cfg.mem_only <;> cases hd : cfg.delaywrite <;>
      cases hs : sqlOk st.exitFlag abort <;>
    simp [set, _set_mem_cache, _set_db_cache, hm, hd, hs]

/-- Durable tier written by a write-through `set` (not mem-only, not deferred,
not exiting, no abort). -/
theorem set_db_eq_writethrough (cfg : Config) (now : Int) (st : CacheState α) (e : String)
    (d : α) (cs : String) (days : Int)
    (hm : cfg.mem_only = false) (hd : cfg.delaywrite = false) (hx : st.exitFlag = false) :
    (set cfg false now st e d cs days).db =
      insertReplace e
        (DbRow.mk (set_timestamp now (days * TIME_DAYS)) d
          (_get_checksum cfg.global_checksum cs)) st.db := by
  simp [set, _set_mem_cache, _set_db_cache, hm, hd, hx, sqlOk_false_false]

/-! ### Concrete fixtures used by the closed evaluation theorems -/

/-- Write-through configuration (namespace `t`, no override, not mem-only,
no deferred writes). -/
def cfgW : Config := { sc_name := "t", global_checksum := none, mem_only := false, delaywrite := false }

/-- Deferred-write configuration. -/
def cfgD : Config := { sc_name := "t", global_checksum := none, mem_only := false, delaywrite := true }

/-- Empty engine state over string-valued data. -/
def st0 : CacheState String := { mem := [], props := [], db := [], queue := [], exitFlag := false }

end SimpleCache

namespace SimpleCache

/-! ### Claim theorems -/

/-- C1: with deferred writes enabled (and not mem-only), `set(e, d)` appends the
entry to the deferred queue and leaves the durable tier without a row for `e`;
but `close()` does NOT land the queued entries in the durable tier: `close`
sets the `_exit` flag before draining the queue, and `_execute_sql` returns
`None` whenever `_exit` is set, so every queued `_set_db_cache` is a no-op.
Evaluated at the failing input: after `set` the queue holds the entry and the
durable tier has no row for `"e"`; after `close` the queue is cleared and the
durable tier still has no row for `"e"` (the claim says a direct durable read
now yields `"d"`). -/
theorem c1_deferred_write_lost_on_close :
    (set cfgD false 100 st0 "e" "d" "" 30).queue = [("e", 0, 100 + 30 * TIME_DAYS, "d")] ∧
    lookupKey "e" (set cfgD false 100 st0 "e" "d" "" 30).db = none ∧
    (close false (set cfgD false 100 st0 "e" "d" "" 30)).queue = [] ∧
    lookupKey "e" (close false (set cfgD false 100 st0 "e" "d" "" 30)).db = none := by
  refine ⟨by decide, by decide, by decide, by decide⟩

/-- C2: for every engine configuration, state, endpoint, data value, checksum
string and positive `cache_days`, a `set` followed immediately (same clock
reading) by a `get` with the same checksum string returns the stored value:
the entry just written to the ephemeral tier has `expires = now + ttl > now`
and carries exactly the derived checksum, so the memory tier hits. -/
theorem c2_round_trip (cfg : Config) (abort abort2 : Bool) (now : Int) (st : CacheState α)
    (endpoint : String) (data : α) (checksum : String) (cache_days : Int)
    (httl : 0 < cache_days) :
    (get cfg abort2 now (set cfg abort now st endpoint data checksum cache_days)
      endpoint checksum).1 = some data := by
  have hmem := set_mem_eq cfg abort now st endpoint data checksum cache_days
  have hdays : 0 < cache_days * TIME_DAYS := by
    have ht : (0:Int) < TIME_DAYS := by norm_num [TIME_DAYS, TIME_HOURS, TIME_MINUTES]
    exact mul_pos httl ht
  have hexp : ¬ (set_timestamp now (cache_days * TIME_DAYS) ≤ set_timestamp now 0) := by
    simp only [set_timestamp]
    omega
  simp [get, _get_mem_cache, hmem, lookupKey_insertReplace_self, hexp]

/-- Witness for C2 at a concrete input. -/
theorem c2_round_trip_witness :
    (0:Int) < 30 ∧
    (get cfgW false 5 (set cfgW false 5 st0 "e" "d" "v" 30) "e" "v").1 = some "d" :=
  ⟨by decide, c2_round_trip cfgW false false 5 st0 "e" "d" "v" 30 (by decide)⟩

/-- C3: the retry-on-lock logic never retries.  A statement failing with the
locked `OperationalError` makes `_execute_sql` give up after the first attempt
with zero 0.5 s pauses (the membership test on the exception object raises
`TypeError`, and `except TypeError: break` leaves the loop), exactly like any
other execution failure; in both cases the call reports failure (`None`)
rather than raising.  The claim instead requires up to 10 retries with a pause
between attempts on the locked error. -/
theorem c3_locked_error_breaks_immediately :
    _execute_sql (fun _ => (AttemptOutcome.fail (SqlFailure.opErr true) : AttemptOutcome Unit))
      (fun _ => false) false = (none, 0) ∧
    _execute_sql (fun _ => (AttemptOutcome.fail SqlFailure.exc : AttemptOutcome Unit))
      (fun _ => false) false = (none, 0) := ⟨rfl, rfl⟩

/-- Specification-side restatement of the checksum derivation, written from
the words of the spec for comparison with `_get_checksum`: zero when both the
input and the override are absent/empty; otherwise the code-point sum of
`"<override>-<input>"` when the override is set (present and non-empty, the
spec counts an empty override as unset) and of the input string itself when it
is not. -/
def derive_spec (override : Option String) (input : String) : Nat :=
  if input = "" ∧ (override = none ∨ override = some "") then 0
  else
    match override with
    | some o => if o = "" then codePointSum input else codePointSum (o ++ "-" ++ input)
    | none => codePointSum input

/-- C9: `_get_checksum` computes exactly the fingerprint the spec describes,
for every optional override and every input string. -/
theorem c9_checksum_derivation (override : Option String) (input : String) :
    _get_checksum override input = derive_spec override input := by
  cases override with
  | none =>
    by_cases h : input = "" <;> simp [_get_checksum, derive_spec, pyTruthy, h]
  | some o =>
    by_cases h : input = "" <;> by_cases ho : o = "" <;>
      simp [_get_checksum, derive_spec, pyTruthy, h, ho]

end SimpleCache

namespace SimpleCache

/-- State with a present `lastexecuted` marker, far in the past relative to the
clock readings used in the witnesses. -/
def stC4 : CacheState String :=
  { mem := [], props := [("t.clean.lastexecuted", "100")], db := [], queue := [], exitFlag := false }

/-- C4: when the "last executed" marker is present, `check_cleanup` never
triggers a cleanup pass, at any clock reading and for any non-negative stored
marker: the source compares
`int(lastexecuted) + set_timestamp(self._auto_clean_interval, True) < cur_time`,
and `set_timestamp` already adds the current time, so the comparison is
`lastexecuted + (now + interval) < now`, which is false whenever
`lastexecuted + interval ≥ 0`.  The claim instead requires the pass to run
exactly when `now - lastexecuted` is at least the interval. -/
theorem c4_cleanup_never_triggers (cfg : Config) (abortTop : Bool) (abortRow : Nat → Bool)
    (now : Int) (st : CacheState α)
    (hpresent : getProp st (cfg.sc_name ++ ".clean.lastexecuted") ≠ "")
    (hnonneg : 0 ≤ pyInt (getProp st (cfg.sc_name ++ ".clean.lastexecuted"))) :
    (check_cleanup cfg abortTop abortRow now st).2 = false := by
  have hcond : ¬ (pyInt (getProp st (cfg.sc_name ++ ".clean.lastexecuted")) +
      set_timestamp now auto_clean_interval < set_timestamp now 0) := by
    simp only [set_timestamp, auto_clean_interval, TIME_HOURS, TIME_MINUTES]
    omega
  cases hm : cfg.mem_only
  case false => simp [check_cleanup, hm, hpresent, hcond]
  case true => simp [check_cleanup, hm]

/-- Witness for C4: the marker reads 100, the clock reads 1000000 (so the
claimed trigger condition `now - lastexecuted ≥ 4 hours` holds), yet no
cleanup pass is triggered. -/
theorem c4_cleanup_never_triggers_witness :
    getProp stC4 (cfgW.sc_name ++ ".clean.lastexecuted") ≠ "" ∧
    0 ≤ pyInt (getProp stC4 (cfgW.sc_name ++ ".clean.lastexecuted")) ∧
    (check_cleanup cfgW false (fun _ => false) 1000000 stC4).2 = false :=
  ⟨by decide, by decide,
    c4_cleanup_never_triggers cfgW false (fun _ => false) 1000000 stC4 (by decide) (by decide)⟩

/-- State used for the cleanup-abort runs: one durable row, clean markers. -/
def stC5 : CacheState String :=
  { mem := [("t_e", MemEntry.mk 50 "d" 0)], props := [], db := [("e", DbRow.mk 10 "d" 0)],
    queue := [], exitFlag := false }

/-- C5 counterexample: with the abort signal up while `_do_cleanup` is
enumerating the durable rows (here from the first row on), the function
returns from inside the loop, so the claimed washup does not happen: the
"last executed" marker is not recorded as `now` and the "cleanup busy" marker
is left set (the run below leaves it at "busy"). -/
theorem c5_counterexample :
    ¬ (getProp (_do_cleanup cfgW false false (fun _ => true) 5 stC5)
        (cfgW.sc_name ++ ".clean.lastexecuted") = toString (set_timestamp 5 0) ∧
       getProp (_do_cleanup cfgW false false (fun _ => true) 5 stC5)
        (cfgW.sc_name ++ ".cleanbusy") = "") :=
  fun h => absurd h.2 (by decide)

/-- C5 amended: if the exit flag or the abort signal fires while `_do_cleanup`
is enumerating the durable rows (here: at the first row), the enumeration
stops early and the function returns at once; the "last executed" marker is
NOT updated and the "cleanup busy" marker remains set — the resulting state is
exactly the input state with `.cleanbusy` set to "busy". -/
theorem c5_early_abort_skips_washup (cfg : Config) (st : CacheState α) (abortRow : Nat → Bool)
    (now : Int) (r : String × DbRow α) (rest : List (String × DbRow α))
    (hx : st.exitFlag = false) (hb : getProp st (cfg.sc_name ++ ".cleanbusy") = "")
    (hdb : st.db = r :: rest) (ha0 : abortRow 0 = true) :
    _do_cleanup cfg false false abortRow now st =
      setProp st (cfg.sc_name ++ ".cleanbusy") "busy" := by
  unfold _do_cleanup
  rw [hx]
  simp only [Bool.or_false, Bool.false_eq_true, if_false, hb, ne_eq, not_true_eq_false]
  have hdb1 : (setProp st (cfg.sc_name ++ ".cleanbusy") "busy").db = r :: rest := by
    simp [setProp, hdb]
  have hx1 : (setProp st (cfg.sc_name ++ ".cleanbusy") "busy").exitFlag = false := by
    simp [setProp, hx]
  rw [hdb1, hx1]
  simp [cleanupLoop, ha0]

/-- Witness for C5's amended statement at the concrete run of the
counterexample. -/
theorem c5_early_abort_skips_washup_witness :
    stC5.exitFlag = false ∧ getProp stC5 (cfgW.sc_name ++ ".cleanbusy") = "" ∧
    stC5.db = ("e", DbRow.mk 10 "d" 0) :: [] ∧
    _do_cleanup cfgW false false (fun _ => true) 5 stC5 =
      setProp stC5 (cfgW.sc_name ++ ".cleanbusy") "busy" :=
  ⟨rfl, by decide, rfl,
    c5_early_abort_skips_washup cfgW stC5 (fun _ => true) 5 ("e", DbRow.mk 10 "d" 0) []
      rfl (by decide) rfl rfl⟩

/-- State with an ephemeral miss and a valid durable row whose stored checksum
(5) differs from the derived checksum of an empty caller checksum (0). -/
def stC6 : CacheState String :=
  { mem := [], props := [], db := [("e", DbRow.mk 10 "d" 5)], queue := [], exitFlag := false }

/-- C6 counterexample: on this durable-tier hit (ephemeral miss, row valid,
derived checksum empty) the value is returned, but the ephemeral tier is NOT
repopulated with the found checksum: the new ephemeral entry carries the
derived request checksum 0, not the stored row checksum 5. -/
theorem c6_counterexample :
    (get cfgW false 0 stC6 "e" "").1 = some "d" ∧
    lookupKey (cfgW.sc_name ++ "_" ++ "e") (get cfgW false 0 stC6 "e" "").2.mem =
      some (MemEntry.mk 10 "d" 0) ∧
    ¬ lookupKey (cfgW.sc_name ++ "_" ++ "e") (get cfgW false 0 stC6 "e" "").2.mem =
      some (MemEntry.mk 10 "d" 5) :=
  ⟨by decide, by decide, by decide⟩

/-- C6 amended: on a durable-tier hit in `get` (ephemeral miss, not mem-only,
durable row valid and its checksum matching the derived checksum or the
derived checksum empty), the found value is returned and the ephemeral tier is
repopulated with the found value and expiry together with the REQUEST's
derived checksum (which equals the stored checksum whenever the derived
checksum is non-zero). -/
theorem c6_db_hit_repopulates (cfg : Config) (st : CacheState α) (e : String) (checksum : String)
    (now : Int) (row : DbRow α)
    (hmiss : _get_mem_cache cfg st e (_get_checksum cfg.global_checksum checksum)
      (set_timestamp now 0) = none)
    (hm : cfg.mem_only = false) (hx : st.exitFlag = false)
    (hdb : lookupKey e st.db = some row)
    (ht : set_timestamp now 0 < row.expires)
    (hcs : _get_checksum cfg.global_checksum checksum = 0 ∨
           _get_checksum cfg.global_checksum checksum = row.checksum) :
    get cfg false now st e checksum =
      (some row.data,
        _set_mem_cache cfg st e (_get_checksum cfg.global_checksum checksum)
          row.expires row.data) := by
  simp only [get, hmiss, hm, Bool.false_eq_true, if_false]
  unfold _get_db_cache
  rw [hx]
  simp only [sqlOk_false_false, if_true, hdb]
  rw [if_neg (not_le.mpr ht), if_pos hcs]

/-- Witness for C6's amended statement at the counterexample run. -/
theorem c6_db_hit_repopulates_witness :
    get cfgW false 0 stC6 "e" "" = (some "d", _set_mem_cache cfgW stC6 "e" 0 10 "d") := by
  have h := c6_db_hit_repopulates cfgW stC6 "e" "" 0 (DbRow.mk 10 "d" 5)
    (by decide) rfl rfl (by decide) (by decide) (Or.inl (by decide))
  exact h

end SimpleCache

namespace SimpleCache

/-- C7: with no process-wide override, after `set(e, d, checksum="v1")` and
while the entry is unexpired (on a write-through engine starting from any
state), `get(e, checksum="v2")` is absent, `get(e, checksum="v1")` returns
`d`, and `get(e, checksum="")` returns `d`: checksum validation only applies
to a non-empty caller checksum, and an empty checksum always matches. -/
theorem c7_checksum_gating (cfg : Config) (st : CacheState α) (now t : Int) (e : String) (d : α)
    (hg : cfg.global_checksum = none) (hm : cfg.mem_only = false) (hd : cfg.delaywrite = false)
    (hx : st.exitFlag = false) (ht : t < now + 30 * TIME_DAYS) :
    (get cfg false t (set cfg false now st e d "v1" 30) e "v2").1 = none ∧
    (get cfg false t (set cfg false now st e d "v1" 30) e "v1").1 = some d ∧
    (get cfg false t (set cfg false now st e d "v1" 30) e "").1 = some d := by
  have hmem := set_mem_eq cfg false now st e d "v1" 30
  have hdbq := set_db_eq_writethrough cfg now st e d "v1" 30 hm hd hx
  have hxf := set_exitFlag cfg false now st e d "v1" 30
  rw [hg] at hmem hdbq
  have hcs1 : _get_checksum none "v1" = 167 := by decide
  have hcs2 : _get_checksum none "v2" = 168 := by decide
  have hcs0 : _get_checksum none "" = 0 := by decide
  have hexp : ¬ (set_timestamp now (30 * TIME_DAYS) ≤ set_timestamp t 0) := by
    simp only [set_timestamp, TIME_DAYS, TIME_HOURS, TIME_MINUTES] at ht ⊢
    omega
  refine ⟨?_, ?_, ?_⟩
  · simp [get, _get_mem_cache, hg, hcs1, hcs2, hmem, lookupKey_insertReplace_self, hexp, hm,
      _get_db_cache, hxf, hx, sqlOk_false_false, hdbq]
  · simp [get, _get_mem_cache, hg, hcs1, hmem, lookupKey_insertReplace_self, hexp]
  · simp [get, _get_mem_cache, hg, hcs0, hcs1, hmem, lookupKey_insertReplace_self, hexp]

/-- Witness for C7 at a concrete input. -/
theorem c7_checksum_gating_witness :
    cfgW.global_checksum = none ∧ (0:Int) < 0 + 30 * TIME_DAYS ∧
    (get cfgW false 0 (set cfgW false 0 st0 "e" "d" "v1" 30) "e" "v2").1 = none ∧
    (get cfgW false 0 (set cfgW false 0 st0 "e" "d" "v1" 30) "e" "v1").1 = some "d" ∧
    (get cfgW false 0 (set cfgW false 0 st0 "e" "d" "v1" 30) "e" "").1 = some "d" := by
  have h := c7_checksum_gating cfgW st0 0 0 "e" "d" rfl rfl rfl rfl (by decide)
  exact ⟨rfl, by decide, h.1, h.2.1, h.2.2⟩

/-- Expired ephemeral entry used by the C8 witness. -/
def stC8m : CacheState String :=
  { mem := [("t_e", MemEntry.mk 3 "d" 0)], props := [], db := [], queue := [], exitFlag := false }

/-- Expired durable row used by the C8 witness. -/
def stC8d : CacheState String :=
  { mem := [], props := [], db := [("e", DbRow.mk 3 "d" 0)], queue := [], exitFlag := false }

/-- C8: expiry is exclusive in both tiers — an entry with `expires ≤ now` is a
miss for the memory tier and the database tier (whatever the checksum), and in
particular a write-through `set` with `ttl_days = 0` (entry expiring at the
write clock `now`) is a full-`get` miss at every clock reading `t ≥ now`. -/
theorem c8_expiry_exclusive :
    (∀ (β : Type) (cfg : Config) (st : CacheState β) (e : String) (cs : Nat) (t : Int),
      (∀ entry, lookupKey (cfg.sc_name ++ "_" ++ e) st.mem = some entry → entry.expires ≤ t) →
      _get_mem_cache cfg st e cs t = none) ∧
    (∀ (β : Type) (cfg : Config) (abort : Bool) (st : CacheState β) (e : String) (cs : Nat)
        (t : Int),
      (∀ row, lookupKey e st.db = some row → row.expires ≤ t) →
      (_get_db_cache cfg abort st e cs t).1 = none) ∧
    (∀ (β : Type) (cfg : Config) (st : CacheState β) (e : String) (d : β) (checksum : String)
        (now t : Int),
      cfg.mem_only = false → cfg.delaywrite = false → st.exitFlag = false → now ≤ t →
      (get cfg false t (set cfg false now st e d checksum 0) e checksum).1 = none) := by
  refine ⟨?_, ?_, ?_⟩
  · intro β cfg st e cs t h
    unfold _get_mem_cache
    cases hl : lookupKey (cfg.sc_name ++ "_" ++ e) st.mem with
    | none => rfl
    | some entry => simp [h entry hl]
  · intro β cfg abort st e cs t h
    unfold _get_db_cache
    cases hs : sqlOk st.exitFlag abort
    · simp
    · cases hl : lookupKey e st.db with
      | none => simp [hl]
      | some row => simp [hl, h row hl]
  · intro β cfg st e d checksum now t hm hd hx hnt
    have hmem := set_mem_eq cfg false now st e d checksum 0
    have hdbq := set_db_eq_writethrough cfg now st e d checksum 0 hm hd hx
    have hxf := set_exitFlag cfg false now st e d checksum 0
    have hle : set_timestamp now 0 ≤ set_timestamp t 0 := by
      simp only [set_timestamp]
      omega
    simp [get, _get_mem_cache, hmem, lookupKey_insertReplace_self, hle, hm, _get_db_cache,
      hxf, hx, sqlOk_false_false, hdbq]

/-- Witness for C8: the expired concrete entry (expiry 3, clock 3) misses in
each tier, and a concrete ttl-0 write misses a later `get`. -/
theorem c8_expiry_exclusive_witness :
    _get_mem_cache cfgW stC8m "e" 0 3 = none ∧
    (_get_db_cache cfgW false stC8d "e" 0 3).1 = none ∧
    (get cfgW false 7 (set cfgW false 7 st0 "e" "d" "" 0) "e" "").1 = none := by
  refine ⟨?_, ?_, ?_⟩
  · refine c8_expiry_exclusive.1 String cfgW stC8m "e" 0 3 ?_
    intro entry h
    have h2 : some (MemEntry.mk (3:Int) "d" (0:Nat)) = some entry := h
    injection h2 with h3
    subst h3
    decide
  · refine c8_expiry_exclusive.2.1 String cfgW false stC8d "e" 0 3 ?_
    intro row h
    have h2 : some (DbRow.mk (3:Int) "d" (0:Nat)) = some row := h
    injection h2 with h3
    subst h3
    decide
  · exact c8_expiry_exclusive.2.2 String cfgW st0 "e" "d" "" 7 7 rfl rfl rfl (by decide)

/-- C10: while the process-wide override is a non-empty string `g`, a `get`
with an empty caller checksum does not bypass validation: the derived
fingerprint is the code-point sum of `g ++ "-"` followed by the (empty) input,
which is non-zero, and an unexpired stored entry hits in either tier exactly
when its stored checksum equals that fingerprint.  With the override unset the
derived fingerprint of an empty checksum is `0` (the always-matches case). -/
theorem c10_global_override_gates_empty_checksum (g : String) (hg : g ≠ "") :
    _get_checksum (some g) "" ≠ 0 ∧
    (∀ (β : Type) (cfg : Config) (st : CacheState β) (e : String) (t : Int) (entry : MemEntry β),
      lookupKey (cfg.sc_name ++ "_" ++ e) st.mem = some entry → t < entry.expires →
      (_get_mem_cache cfg st e (_get_checksum (some g) "") t = some entry.data ↔
        entry.checksum = _get_checksum (some g) "")) ∧
    (∀ (β : Type) (cfg : Config) (st : CacheState β) (e : String) (t : Int) (row : DbRow β),
      st.exitFlag = false → lookupKey e st.db = some row → t < row.expires →
      ((_get_db_cache cfg false st e (_get_checksum (some g) "") t).1 = some row.data ↔
        row.checksum = _get_checksum (some g) "")) ∧
    _get_checksum none "" = 0 := by
  have hb : (g == "") = false := by
    simpa using hg
  have htr : pyTruthy (some g) = true := by
    simp [pyTruthy, hb]
  have hcond : ¬ (("" : String) = "" ∧ pyTruthy (some g) = false) := by
    simp [htr]
  have hval : _get_checksum (some g) "" = codePointSum (g ++ "-" ++ "") := by
    unfold _get_checksum
    rw [if_neg hcond, if_pos htr]
    rfl
  have hsum : codePointSum (g ++ "-" ++ "") = codePointSum g + 45 := by
    rw [codePointSum_append, codePointSum_append]
    have h45 : codePointSum "-" = 45 := by decide
    have h0 : codePointSum "" = 0 := by decide
    omega
  have hnz : _get_checksum (some g) "" ≠ 0 := by
    rw [hval, hsum]
    omega
  refine ⟨hnz, ?_, ?_, by decide⟩
  · intro β cfg st e t entry hl ht
    unfold _get_mem_cache
    simp only [hl]
    rw [if_neg (not_le.mpr ht)]
    by_cases hc : entry.checksum = _get_checksum (some g) ""
    · simp [hc]
    · have hc2 : ¬ (_get_checksum (some g) "" = entry.checksum) := fun h2 => hc h2.symm
      simp [hc, hc2, hnz]
  · intro β cfg st e t row hx hl ht
    unfold _get_db_cache
    rw [hx]
    simp only [sqlOk_false_false, if_true, hl]
    rw [if_neg (not_le.mpr ht)]
    by_cases hc : row.checksum = _get_checksum (some g) ""
    · simp [hc]
    · have hc2 : ¬ (_get_checksum (some g) "" = row.checksum) := fun h2 => hc h2.symm
      simp [hc, hc2, hnz]

/-- Configuration with the process-wide override set to "v". -/
def cfgG : Config :=
  { sc_name := "t", global_checksum := some "v", mem_only := false, delaywrite := false }

/-- State whose ephemeral entry carries checksum 163, the code-point sum of
"v-". -/
def stG : CacheState String :=
  { mem := [("t_e", MemEntry.mk 10 "d" 163)], props := [], db := [], queue := [], exitFlag := false }

/-- Witness for C10 at the override "v": the derived fingerprint of the empty
checksum is non-zero and gates a concrete unexpired entry. -/
theorem c10_global_override_gates_empty_checksum_witness :
    "v" ≠ "" ∧ _get_checksum (some "v") "" ≠ 0 ∧
    (_get_mem_cache cfgG stG "e" (_get_checksum (some "v") "") 0 =
        some (MemEntry.mk (10:Int) "d" (163:Nat)).data ↔
      (MemEntry.mk (10:Int) "d" (163:Nat)).checksum = _get_checksum (some "v") "") := by
  have h := c10_global_override_gates_empty_checksum "v" (by decide)
  exact ⟨by decide, h.1,
    h.2.1 String cfgG stG "e" 0 (MemEntry.mk 10 "d" 163) (by decide) (by decide)⟩

end SimpleCache
